import Mathlib

/-!
Verification of the oak-query SQL statement assembler.

This file is a shallow embedding of the library's source:
  * `src/general.rs`   — the value model (`SqlValue`, serde_json `Value`,
    `Number`) and the shared binders `push_jsonvalue` / `push_sqlvalue`;
  * `src/condition.rs` — the live predicate assembler `ConditionBuilder`;
  * `src/condition/condition.rs` — the earlier, superseded revision of the
    predicate assembler (`Legacy.condition_builder`); it is not reachable from
    the crate root (no `mod` declaration names it) but is embedded because the
    specification echoes some of its behaviour;
  * `src/insert.rs`    — `InsertBuilder`;
  * `src/update.rs`    — `UpdateBuilder`.

The sqlx `QueryBuilder<Postgres>` collaborator is modelled as a pair of the
accumulated SQL text and the ordered list of bound values; `push_bind` appends
the next positional placeholder `$n` (n = number of values bound so far + 1),
exactly the observable behaviour the crate's unit tests rely on
(`into_sql()` showing `$1`, `$2`, ...).

Rust panics (the `unwrap` calls in `insert.rs`) are modelled by `Option`:
`none` is a panic, `some` a normally completed build.
-/

/-- An `f64` payload, represented symbolically: either raw bits or the value
obtained by converting an integer.  The assembler never computes with floats,
it only moves them around, so this representation is faithful for every
property stated here. -/
inductive F64 where
  | raw (bits : Nat)
  | ofInt (i : Int)

/-- serde_json's `Number`: a non-negative integer (stored as `u64`), a negative
integer (stored as `i64`), or a float. -/
inductive JNumber where
  | posInt (n : Nat)
  | negInt (i : Int)
  | float (f : F64)

def i64Max : Nat := 2 ^ 63 - 1

/-- `Number::is_i64`: true for negative integers and for non-negative integers
that fit in an `i64`. -/
def JNumber.is_i64 : JNumber → Bool
  | .posInt n => n ≤ i64Max
  | .negInt _ => true
  | .float _ => false

/-- `Number::is_u64`: true exactly for the non-negative integer variant. -/
def JNumber.is_u64 : JNumber → Bool
  | .posInt _ => true
  | _ => false

/-- `Number::is_f64`: true exactly for the float variant. -/
def JNumber.is_f64 : JNumber → Bool
  | .float _ => true
  | _ => false

/-- `Number::as_i64`: the integer value when it fits in an `i64`. -/
def JNumber.as_i64 : JNumber → Option Int
  | .posInt n => if n ≤ i64Max then some (n : Int) else none
  | .negInt i => some i
  | .float _ => none

/-- `Number::as_f64`: floats yield their payload; integers are converted. -/
def JNumber.as_f64 : JNumber → Option F64
  | .posInt n => some (.ofInt (n : Int))
  | .negInt i => some (.ofInt i)
  | .float f => some f

/-- serde_json's `Value`. -/
inductive Json where
  | null
  | bool (b : Bool)
  | number (n : JNumber)
  | str (s : String)
  | arr (items : List Json)
  | obj (fields : List (String × Json))

/-- chrono's `NaiveDate`, opaque to the assembler. -/
structure NaiveDate where
  ordinal : Int

/-- chrono's `NaiveDateTime`, opaque to the assembler. -/
structure NaiveDateTime where
  ticks : Int

/-- `general.rs`: `enum NaiveChrono`. -/
inductive NaiveChrono where
  | naiveDate (d : NaiveDate)
  | naiveDateTime (dt : NaiveDateTime)

/-- `general.rs`: `enum SqlValue`. -/
inductive SqlValue where
  | genericValue (v : Json)
  | naiveChrono (c : NaiveChrono)

/-- One value handed to sqlx's `push_bind`, tagged with the Rust type it was
bound at.  (`optF64` / `optI64` record that `push_jsonvalue` binds the
`Option` returned by `as_f64` / `as_i64` without unwrapping it.) -/
inductive BindValue where
  | bool (b : Bool)
  | optF64 (x : Option F64)
  | optI64 (x : Option Int)
  | i64 (i : Int)
  | f64 (f : F64)
  | str (s : String)
  | jsonArr (items : List Json)
  | json (v : Json)
  | date (d : NaiveDate)
  | datetime (dt : NaiveDateTime)

/-- The sqlx `QueryBuilder<Postgres>` collaborator: accumulated SQL text plus
the ordered bound-value list. -/
structure QueryBuilder where
  sql : String
  binds : List BindValue

/-- `QueryBuilder::push`: append raw SQL text. -/
def QueryBuilder.push (q : QueryBuilder) (s : String) : QueryBuilder :=
  { q with sql := q.sql ++ s }

/-- `QueryBuilder::push_bind`: bind a value and append its positional
placeholder `$n`, with `n` = number of previously bound values + 1. -/
def QueryBuilder.push_bind (q : QueryBuilder) (v : BindValue) : QueryBuilder :=
  { sql := q.sql ++ ("$" ++ toString (q.binds.length + 1)),
    binds := q.binds ++ [v] }

/-- `QueryBuilder::new(s)`. -/
def QueryBuilder.new (s : String) : QueryBuilder :=
  { sql := s, binds := [] }

/-- `general.rs`: `enum BaseQuery`. -/
inductive BaseQuery where
  | sqlText (s : String)
  | queryBuilder (q : QueryBuilder)

/-- The first lines of `ConditionBuilder::build`: turn the base into a
query builder (`QueryBuilder::new` for raw SQL, identity otherwise). -/
def BaseQuery.toQuery : BaseQuery → QueryBuilder
  | .sqlText s => QueryBuilder.new s
  | .queryBuilder q => q

/-- `general.rs`: `push_jsonvalue`.  `Null` pushes nothing; `Number` runs two
successive `if`s on `is_f64` and `is_i64 || is_u64`, binding the un-unwrapped
`Option` results of `as_f64` / `as_i64`. -/
def push_jsonvalue (value : Json) (query_builder : QueryBuilder) : QueryBuilder :=
  match value with
  | .null => query_builder
  | .bool v => query_builder.push_bind (.bool v)
  | .number v =>
      let q1 := if v.is_f64 then query_builder.push_bind (.optF64 v.as_f64)
                else query_builder
      if v.is_i64 || v.is_u64 then q1.push_bind (.optI64 v.as_i64) else q1
  | .str v => query_builder.push_bind (.str v)
  | .arr v => query_builder.push_bind (.jsonArr v)
  | .obj fields => query_builder.push_bind (.json (.obj fields))

/-- `general.rs`: `push_sqlvalue`. -/
def push_sqlvalue (value : SqlValue) (query_builder : QueryBuilder) : QueryBuilder :=
  match value with
  | .genericValue v => push_jsonvalue v query_builder
  | .naiveChrono (.naiveDate nd) => query_builder.push_bind (.date nd)
  | .naiveChrono (.naiveDateTime ndt) => query_builder.push_bind (.datetime ndt)

/-- ASCII uppercase of one character (the comparator tokens this library
dispatches on are ASCII, where Rust's `to_uppercase` agrees with this). -/
def upperChar (c : Char) : Char :=
  if 97 ≤ c.toNat ∧ c.toNat ≤ 122 then Char.ofNat (c.toNat - 32) else c

/-- Rust's `str::to_uppercase` (restricted to ASCII). -/
def strToUpper (s : String) : String :=
  ⟨s.data.map upperChar⟩

/-- Whether `pat` is a leading segment of `s` (on character lists). -/
def leadsChars : List Char → List Char → Bool
  | [], _ => true
  | _ :: _, [] => false
  | a :: as, b :: bs => a == b && leadsChars as bs

/-- Whether `pat` occurs as a contiguous segment of `s` (on character lists). -/
def containsChars : List Char → List Char → Bool
  | s, pat =>
    match s with
    | [] => leadsChars pat []
    | _ :: rest => leadsChars pat s || containsChars rest pat

/-- Rust's substring containment `haystack.contains(needle)`. -/
def containsSubstr (s pat : String) : Bool :=
  containsChars s.toList pat.toList

/-- `condition.rs`: `struct Condition` (the live revision; `value_l` is a
plain `SqlValue`, not an `Option`). -/
structure Condition where
  chain_opr : Option String
  column : String
  eq_opr : String
  value_l : SqlValue
  value_r : Option SqlValue

/-- `condition.rs`: `ConditionBuilder::push_as_sql_tuple`'s inner
`for (index, item) in item_list.iter().enumerate()` loop. -/
def sqlTupleLoop (len : Nat) : Nat → List Json → QueryBuilder → QueryBuilder
  | _, [], query => query
  | index, item :: rest, query =>
      let query := push_jsonvalue item query
      let query := if index < len - 1 then query.push ", " else query
      sqlTupleLoop len (index + 1) rest query

/-- `condition.rs`: `ConditionBuilder::push_as_sql_tuple`. -/
def push_as_sql_tuple (item_list : List Json) (query : QueryBuilder) : QueryBuilder :=
  ((sqlTupleLoop item_list.length 0 item_list (query.push "(")).push ")")

/-- The body of `ConditionBuilder::build`'s per-predicate `match` on
`cond.eq_opr.to_uppercase().as_str()` at enumeration index `index`:
arms `"BETWEEN"`, `"IN"`, `operator if operator.contains("LIKE")`, `_`. -/
def condStep (index : Nat) (cond : Condition) (query : QueryBuilder) : QueryBuilder :=
  let operator := strToUpper cond.eq_opr
  if operator = "BETWEEN" then
    match cond.value_r with
    | some value_r =>
        if index = 0 then
          let query := query.push "\nWHERE"
          let query := query.push ("\n    " ++ cond.column ++ " " ++ cond.eq_opr ++ " ")
          let query := push_sqlvalue cond.value_l query
          let query := query.push " AND "
          push_sqlvalue value_r query
        else
          match cond.chain_opr with
          | some chain_opr =>
              let query := query.push
                ("\n    " ++ chain_opr ++ " " ++ cond.column ++ " " ++ cond.eq_opr ++ " ")
              let query := push_sqlvalue cond.value_l query
              let query := query.push " AND "
              push_sqlvalue value_r query
          | none => query
    | none => query
  else if operator = "IN" then
    if index = 0 then
      match cond.value_l with
      | .genericValue (.arr item_list) =>
          let query := query.push "\nWHERE"
          let query := query.push ("\n    " ++ cond.column ++ " " ++ cond.eq_opr ++ " ")
          push_as_sql_tuple item_list query
      | _ => query
    else
      match cond.chain_opr with
      | some chain_opr =>
          match cond.value_l with
          | .genericValue (.arr item_list) =>
              let query := query.push
                ("\n    " ++ chain_opr ++ " " ++ cond.column ++ " " ++ cond.eq_opr ++ " ")
              push_as_sql_tuple item_list query
          | _ => query
      | none => query
  else if containsSubstr operator "LIKE" then
    if index = 0 then
      let query := query.push "\nWHERE"
      let query := query.push ("\n    " ++ cond.column ++ " " ++ cond.eq_opr ++ " ")
      let like_value : String :=
        match cond.value_l with
        | .genericValue (.str value) => "%" ++ value ++ "%"
        | _ => ""
      push_sqlvalue (.genericValue (.str like_value)) query
    else
      match cond.chain_opr with
      | some chain_opr =>
          let query := query.push
            ("\n    " ++ chain_opr ++ " " ++ cond.column ++ " " ++ cond.eq_opr ++ " ")
          push_sqlvalue cond.value_l query
      | none => query
  else
    if index = 0 then
      let query := query.push "\nWHERE"
      let query := query.push ("\n    " ++ cond.column ++ " " ++ cond.eq_opr ++ " ")
      push_sqlvalue cond.value_l query
    else
      match cond.chain_opr with
      | some chain_opr =>
          let query := query.push
            ("\n    " ++ chain_opr ++ " " ++ cond.column ++ " " ++ cond.eq_opr ++ " ")
          push_sqlvalue cond.value_l query
      | none => query

/-- `ConditionBuilder::build`'s
`for (index, cond) in self.conditions.iter().enumerate()` loop. -/
def condLoop : Nat → List Condition → QueryBuilder → QueryBuilder
  | _, [], query => query
  | index, cond :: rest, query => condLoop (index + 1) rest (condStep index cond query)

/-- `condition.rs`: `struct ConditionBuilder` (field `end` renamed `endPart`,
`end` being a Lean keyword). -/
structure ConditionBuilder where
  base_query : BaseQuery
  conditions : List Condition
  middle : Option String
  limit : Option Int
  offset : Option Int
  endPart : Option String

/-- `condition.rs`: `ConditionBuilder::build`. -/
def ConditionBuilder.build (b : ConditionBuilder) : QueryBuilder :=
  let query := b.base_query.toQuery
  let query := condLoop 0 b.conditions query
  let query := match b.middle with
    | some middle_sql => query.push ("\n" ++ middle_sql)
    | none => query
  let query := match b.limit with
    | some limit => (query.push "\nLIMIT ").push_bind (.i64 limit)
    | none => query
  let query := match b.offset with
    | some offset => (query.push "\nOFFSET ").push_bind (.i64 offset)
    | none => query
  match b.endPart with
  | some ending => query.push ("\n" ++ ending)
  | none => query

namespace Legacy

/-- `condition/condition.rs` (superseded revision): `struct Condition`; here
both values are `Option<serde_json::Value>` and there is no date variant. -/
structure Condition where
  chain_operator : Option String
  column : String
  equality : String
  value_l : Option Json
  value_r : Option Json

/-- The body of the superseded `condition_builder`'s per-predicate step at
enumeration index `index`: a `contains("BETWEEN")` test, then in both branches
a chain-operator test that takes precedence over the index-0 test, and
`push_bind` of the raw `serde_json::Value` reference. -/
def condStep (index : Nat) (cond : Condition) (query : QueryBuilder) : QueryBuilder :=
  if containsSubstr (strToUpper cond.equality) "BETWEEN" then
    match cond.value_l, cond.value_r with
    | some value_l, some value_r =>
        match cond.chain_operator with
        | some chain_operator =>
            let query := query.push
              ("\n    " ++ chain_operator ++ " " ++ cond.column ++ " " ++ cond.equality ++ " ")
            let query := query.push_bind (.json value_l)
            let query := query.push " AND "
            query.push_bind (.json value_r)
        | none =>
            if index = 0 then
              let query := query.push "\nWHERE"
              let query := query.push ("\n    " ++ cond.column ++ " " ++ cond.equality ++ " ")
              let query := query.push_bind (.json value_l)
              let query := query.push " AND "
              query.push_bind (.json value_r)
            else query
    | _, _ => query
  else
    match cond.value_l with
    | some value =>
        match cond.chain_operator with
        | some chain_operator =>
            let query := query.push
              ("\n    " ++ chain_operator ++ " " ++ cond.column ++ " " ++ cond.equality ++ " ")
            query.push_bind (.json value)
        | none =>
            if index = 0 then
              let query := query.push "\nWHERE"
              let query := query.push ("\n    " ++ cond.column ++ " " ++ cond.equality ++ " ")
              query.push_bind (.json value)
            else query
    | none => query

/-- The superseded builder's `for (index, cond) in conditions.iter().enumerate()`
loop. -/
def condLoop : Nat → List Condition → QueryBuilder → QueryBuilder
  | _, [], query => query
  | index, cond :: rest, query => condLoop (index + 1) rest (condStep index cond query)

/-- `condition/condition.rs` (superseded revision): `condition_builder`.
Note `middle` and `end` are pushed verbatim (no added newline). -/
def condition_builder (base_query : String) (conditions : List Condition)
    (middle : String) (limit : Option Int) (offset : Option Int)
    (endSql : String) : QueryBuilder :=
  let query := QueryBuilder.new base_query
  let query := condLoop 0 conditions query
  let query := query.push middle
  let query := match limit with
    | some l => (query.push "\nLIMIT ").push_bind (.i64 l)
    | none => query
  let query := match offset with
    | some o => (query.push "\nOFFSET ").push_bind (.i64 o)
    | none => query
  query.push endSql

end Legacy

/-- `insert.rs`: `type Row`. -/
def Row := List (Option SqlValue)

/-- The value `match` inside `InsertBuilder::build`'s column loop for a
present (`Some`) row entry.  `none` models a Rust panic: the
`as_i64().unwrap()` / `as_f64().unwrap()` calls. -/
def insertPushValue (sql_value : SqlValue) (query : QueryBuilder) : Option QueryBuilder :=
  match sql_value with
  | .genericValue .null => some (query.push "null")
  | .genericValue (.bool v) => some (query.push_bind (.bool v))
  | .genericValue (.number v) =>
      if v.is_i64 || v.is_u64 then
        match v.as_i64 with
        | some i => some (query.push_bind (.i64 i))
        | none => none
      else
        match v.as_f64 with
        | some f => some (query.push_bind (.f64 f))
        | none => none
  | .genericValue (.str v) => some (query.push_bind (.str v))
  | .genericValue (.arr v) => some (query.push_bind (.jsonArr v))
  | .genericValue (.obj fields) => some (query.push_bind (.json (.obj fields)))
  | .naiveChrono (.naiveDate chrono_value) => some (query.push_bind (.date chrono_value))
  | .naiveChrono (.naiveDateTime chrono_value) => some (query.push_bind (.datetime chrono_value))

/-- `InsertBuilder::build`'s inner `for (col_index, value) in row.iter().enumerate()`
loop; `len` is the row's length (used for the `", "` separator test). -/
def insertRowVals (len : Nat) : Nat → List (Option SqlValue) → QueryBuilder →
    Option QueryBuilder
  | _, [], query => some query
  | col_index, value :: rest, query =>
      let step : Option QueryBuilder :=
        match value with
        | some sql_value => insertPushValue sql_value query
        | none => some (query.push "default")
      match step with
      | none => none
      | some query =>
          let query := if col_index < len - 1 then query.push ", " else query
          insertRowVals len (col_index + 1) rest query

/-- `InsertBuilder::build`'s outer `for (row_index, row) in rows.iter().enumerate()`
loop; a row is emitted only when its length equals `colCount`, and the
row separator is chosen by the row's index in the original matrix
(`row_index < rowsLen - 1`). -/
def insertRowsLoop (colCount rowsLen : Nat) : Nat → List Row → QueryBuilder →
    Option QueryBuilder
  | _, [], query => some query
  | row_index, row :: rest, query =>
      if colCount = List.length row then
        let query := query.push "       ("
        match insertRowVals (List.length row) 0 row query with
        | none => none
        | some query =>
            let query := if row_index < rowsLen - 1 then query.push "),\n"
                         else query.push ")\n"
            insertRowsLoop colCount rowsLen (row_index + 1) rest query
      else insertRowsLoop colCount rowsLen (row_index + 1) rest query

/-- `InsertBuilder::build`'s `for (index, column) in self.columns.iter().enumerate()`
loop: every column but the last is followed by `", "`, the last closes the
parenthesis — so an empty column list never closes it. -/
def insertColsLoop (lenC : Nat) : Nat → List String → QueryBuilder → QueryBuilder
  | _, [], query => query
  | index, column :: rest, query =>
      let query := if index < lenC - 1 then query.push (column ++ ", ")
                   else query.push (column ++ ")\n")
      insertColsLoop lenC (index + 1) rest query

/-- `insert.rs`: `struct InsertBuilder`. -/
structure InsertBuilder where
  table : String
  columns : List String
  rows : List Row
  last_part : Option String

/-- `insert.rs`: `InsertBuilder::build`; `none` models a panic. -/
def InsertBuilder.build (b : InsertBuilder) : Option QueryBuilder :=
  let query := QueryBuilder.new ""
  if b.rows.isEmpty then some query
  else
    let query := query.push ("INSERT INTO " ++ b.table ++ "(")
    let query := insertColsLoop b.columns.length 0 b.columns query
    let query := query.push "VALUES\n"
    match insertRowsLoop b.columns.length b.rows.length 0 b.rows query with
    | none => none
    | some query =>
        some (match b.last_part with
          | some last_part => query.push (last_part ++ "\n")
          | none => query)

/-- `update.rs`: `enum UpdColumnType`. -/
inductive UpdColumnType where
  | primitive (v : Json)
  | dateTime (dt : NaiveDateTime)
  | date (d : NaiveDate)

/-- `update.rs`: `type Column`. -/
def Column := String × UpdColumnType

/-- The `match &column.1` inside `UpdateBuilder::build` (identical in both
`index == 0` and later arms). -/
def updPushColValue (c : UpdColumnType) (query : QueryBuilder) : QueryBuilder :=
  match c with
  | .primitive primitive => query.push_bind (.json primitive)
  | .dateTime datetime => query.push_bind (.datetime datetime)
  | .date date => query.push_bind (.date date)

/-- `UpdateBuilder::build`'s `for (index, column) in self.columns.iter().enumerate()`
loop: index 0 emits `\n    SET <col> = `, later indices `\n    <col> = `;
every column but the last is followed by `","`. -/
def updColsLoop (lenC : Nat) : Nat → List Column → QueryBuilder → QueryBuilder
  | _, [], query => query
  | index, column :: rest, query =>
      let query := if index = 0 then query.push ("\n    SET " ++ column.1 ++ " = ")
                   else query.push ("\n    " ++ column.1 ++ " = ")
      let query := updPushColValue column.2 query
      let query := if index < lenC - 1 then query.push "," else query
      updColsLoop lenC (index + 1) rest query

/-- `update.rs`: `struct UpdateBuilder` (field `end` renamed `endPart`). -/
structure UpdateBuilder where
  table : String
  columns : List Column
  conditions : List Condition
  endPart : Option String

/-- `update.rs`: `UpdateBuilder::build` (the column/`SET` fragment only). -/
def UpdateBuilder.build (b : UpdateBuilder) : QueryBuilder :=
  let query := QueryBuilder.new ""
  if b.columns.isEmpty then query
  else
    let query := query.push ("UPDATE " ++ b.table)
    updColsLoop b.columns.length 0 b.columns query

/-- `update.rs`: `UpdateBuilder::build_all`: delegate to the predicate
assembler over the partially built buffer. -/
def UpdateBuilder.build_all (b : UpdateBuilder) : QueryBuilder :=
  ConditionBuilder.build
    { base_query := .queryBuilder b.build
      conditions := b.conditions
      middle := none
      limit := none
      offset := none
      endPart := b.endPart }

/-! ## Helper predicates (spec-side vocabulary) -/

/-- Whether a `serde_json::Value` is the `Null` variant. -/
def Json.isNull : Json → Bool
  | .null => true
  | _ => false

/-- Whether a `SqlValue` is a generic JSON array — the shape the `IN` branch
pattern-matches for. -/
def isArrValue : SqlValue → Bool
  | .genericValue (.arr _) => true
  | _ => false

/-- The LIKE-branch value rewrite of `ConditionBuilder::build`: text becomes
`%<text>%`, anything else becomes the empty string. -/
def like_wrap (v : SqlValue) : String :=
  match v with
  | .genericValue (.str value) => "%" ++ value ++ "%"
  | _ => ""

/-- Whether a predicate qualifies for its comparator branch (the spec's
side-conditions): `BETWEEN` needs `value_r` present, `IN` needs an array
`value_l`, every other comparator always qualifies. -/
def qualifies (c : Condition) : Bool :=
  if strToUpper c.eq_opr = "BETWEEN" then c.value_r.isSome
  else if strToUpper c.eq_opr = "IN" then isArrValue c.value_l
  else true

/-! ## Generic facts about the statement buffer -/

theorem push_sql (q : QueryBuilder) (s : String) : (q.push s).sql = q.sql ++ s := rfl

theorem push_binds (q : QueryBuilder) (s : String) : (q.push s).binds = q.binds := rfl

/-- `q'` extends `q`: its SQL text is `q`'s followed by something.  Every
operation of every assembler is append-only in this sense. -/
def SqlExtends (q q' : QueryBuilder) : Prop :=
  ∃ t, q'.sql = q.sql ++ t

theorem sqlExtends_refl (q : QueryBuilder) : SqlExtends q q :=
  ⟨"", (String.append_empty q.sql).symm⟩

theorem sqlExtends_trans {a b c : QueryBuilder} (h1 : SqlExtends a b)
    (h2 : SqlExtends b c) : SqlExtends a c := by
  obtain ⟨s, hs⟩ := h1
  obtain ⟨t, ht⟩ := h2
  exact ⟨s ++ t, by rw [ht, hs, String.append_assoc]⟩

theorem sqlExtends_push (q : QueryBuilder) (s : String) : SqlExtends q (q.push s) :=
  ⟨s, rfl⟩

theorem sqlExtends_push_bind (q : QueryBuilder) (v : BindValue) :
    SqlExtends q (q.push_bind v) :=
  ⟨"$" ++ toString (q.binds.length + 1), rfl⟩

theorem sqlExtends_push_jsonvalue (v : Json) (q : QueryBuilder) :
    SqlExtends q (push_jsonvalue v q) := by
  cases v with
  | number n =>
      simp only [push_jsonvalue]
      split
      · split
        · exact sqlExtends_trans (sqlExtends_push_bind _ _) (sqlExtends_push_bind _ _)
        · exact sqlExtends_push_bind _ _
      · split
        · exact sqlExtends_push_bind _ _
        · exact sqlExtends_refl _
  | null => exact sqlExtends_refl _
  | bool b => exact sqlExtends_push_bind _ _
  | str s => exact sqlExtends_push_bind _ _
  | arr items => exact sqlExtends_push_bind _ _
  | obj fields => exact sqlExtends_push_bind _ _

theorem sqlExtends_push_sqlvalue (v : SqlValue) (q : QueryBuilder) :
    SqlExtends q (push_sqlvalue v q) := by
  cases v with
  | genericValue j => exact sqlExtends_push_jsonvalue j q
  | naiveChrono c => cases c <;> exact sqlExtends_push_bind _ _

theorem sqlExtends_sqlTupleLoop (items : List Json) (len i : Nat) (q : QueryBuilder) :
    SqlExtends q (sqlTupleLoop len i items q) := by
  induction items generalizing i q with
  | nil => exact sqlExtends_refl _
  | cons item rest ih =>
      refine sqlExtends_trans ?_ (ih _ _)
      refine sqlExtends_trans (sqlExtends_push_jsonvalue item q) ?_
      split
      · exact sqlExtends_push _ _
      · exact sqlExtends_refl _

theorem sqlExtends_push_as_sql_tuple (items : List Json) (q : QueryBuilder) :
    SqlExtends q (push_as_sql_tuple items q) := by
  refine sqlExtends_trans (sqlExtends_push q "(") ?_
  exact sqlExtends_trans (sqlExtends_sqlTupleLoop _ _ _ _) (sqlExtends_push _ ")")

theorem sqlExtends_condStep (i : Nat) (c : Condition) (q : QueryBuilder) :
    SqlExtends q (condStep i c q) := by
  obtain ⟨co, col, eqo, vl, vr⟩ := c
  simp only [condStep]
  repeat' split
  all_goals
    repeat
      first
      | exact sqlExtends_refl _
      | refine sqlExtends_trans ?_ (sqlExtends_push_sqlvalue _ _)
      | refine sqlExtends_trans ?_ (sqlExtends_push_as_sql_tuple _ _)
      | refine sqlExtends_trans ?_ (sqlExtends_push _ _)
      | refine sqlExtends_trans ?_ (sqlExtends_push_bind _ _)

theorem sqlExtends_condLoop (cs : List Condition) (i : Nat) (q : QueryBuilder) :
    SqlExtends q (condLoop i cs q) := by
  induction cs generalizing i q with
  | nil => exact sqlExtends_refl _
  | cons c rest ih =>
      exact sqlExtends_trans (sqlExtends_condStep i c q) (ih (i + 1) _)

/-- The trailer of `ConditionBuilder::build` (middle text, LIMIT, OFFSET, end)
only appends. -/
theorem sqlExtends_build (b : ConditionBuilder) :
    SqlExtends (condLoop 0 b.conditions b.base_query.toQuery) b.build := by
  obtain ⟨base, cs, middle, limit, offset, endp⟩ := b
  simp only [ConditionBuilder.build]
  cases middle <;> cases limit <;> cases offset <;> cases endp <;>
    repeat
      first
      | exact sqlExtends_refl _
      | refine sqlExtends_trans ?_ (sqlExtends_push _ _)
      | refine sqlExtends_trans ?_ (sqlExtends_push_bind _ _)

/-- At a non-leading index the per-predicate step does not depend on the
exact index value (only on `index = 0`). -/
theorem condStep_pos_eq (i j : Nat) (c : Condition) (q : QueryBuilder)
    (hi : i ≠ 0) (hj : j ≠ 0) : condStep i c q = condStep j c q := by
  obtain ⟨co, col, eqo, vl, vr⟩ := c
  simp only [condStep, if_neg hi, if_neg hj]

/-- A non-leading predicate without a chain operator contributes nothing. -/
theorem condStep_pos_none (i : Nat) (c : Condition) (q : QueryBuilder)
    (hi : i ≠ 0) (hc : c.chain_opr = none) : condStep i c q = q := by
  obtain ⟨co, col, eqo, vl, vr⟩ := c
  cases hc
  simp only [condStep, if_neg hi]
  repeat' split
  all_goals rfl

/-- The leading step ignores the chain operator entirely. -/
theorem condStep_zero_chain (c : Condition) (co : Option String) (q : QueryBuilder) :
    condStep 0 c q = condStep 0 { c with chain_opr := co } q := by
  obtain ⟨co0, col, eqo, vl, vr⟩ := c
  simp only [condStep, if_pos rfl, eq_self_iff_true, if_true]

/-- Starting the enumeration at any two non-zero indices gives the same
result. -/
theorem condLoop_pos_eq (cs : List Condition) (i j : Nat) (q : QueryBuilder)
    (hi : i ≠ 0) (hj : j ≠ 0) : condLoop i cs q = condLoop j cs q := by
  induction cs generalizing i j q with
  | nil => rfl
  | cons c rest ih =>
      simp only [condLoop]
      rw [condStep_pos_eq i j c q hi hj]
      exact ih (i + 1) (j + 1) _ (Nat.succ_ne_zero i) (Nat.succ_ne_zero j)

/-- Erasing a chain-operator-less predicate from the tail of the list does not
change the enumeration's result (for enumerations starting past index 0). -/
theorem condLoop_erase_pos (cs : List Condition) (i k : Nat) (q : QueryBuilder)
    (hi : i ≠ 0) (hk : k < cs.length)
    (hc : (cs.get ⟨k, hk⟩).chain_opr = none) :
    condLoop i cs q = condLoop i (cs.eraseIdx k) q := by
  induction cs generalizing i k q with
  | nil => simp at hk
  | cons c rest ih =>
      cases k with
      | zero =>
          simp only [List.get] at hc
          simp only [List.eraseIdx, condLoop]
          rw [condStep_pos_none i c q hi hc]
          exact condLoop_pos_eq rest (i + 1) i q (Nat.succ_ne_zero i) hi
      | succ k' =>
          simp only [List.eraseIdx, condLoop]
          exact ih (i + 1) k' _ (Nat.succ_ne_zero i) (by simpa using hk)
            (by simpa using hc)

/-- A qualifying predicate at index 0 emits `WHERE` and its clause head, then
only appends. -/
theorem condStep_zero_where (c : Condition) (q : QueryBuilder)
    (hq : qualifies c = true) :
    ∃ rest, (condStep 0 c q).sql
      = q.sql ++ "\nWHERE" ++ ("\n    " ++ c.column ++ " " ++ c.eq_opr ++ " ") ++ rest := by
  obtain ⟨co, col, eqo, vl, vr⟩ := c
  simp only [qualifies] at hq
  simp only [condStep, if_pos rfl, eq_self_iff_true, if_true]
  by_cases h1 : strToUpper eqo = "BETWEEN"
  · rw [if_pos h1] at hq
    rw [if_pos h1]
    cases vr with
    | none => simp [Option.isSome] at hq
    | some value_r =>
        obtain ⟨t, ht⟩ := sqlExtends_trans
          (sqlExtends_push_sqlvalue vl
            ((q.push "\nWHERE").push ("\n    " ++ col ++ " " ++ eqo ++ " ")))
          (sqlExtends_trans (sqlExtends_push _ " AND ") (sqlExtends_push_sqlvalue value_r _))
        exact ⟨t, ht⟩
  · rw [if_neg h1] at hq
    rw [if_neg h1]
    by_cases h2 : strToUpper eqo = "IN"
    · rw [if_pos h2] at hq
      rw [if_pos h2]
      cases vl with
      | naiveChrono nc => simp [isArrValue] at hq
      | genericValue v =>
          cases v with
          | arr item_list =>
              obtain ⟨t, ht⟩ := sqlExtends_push_as_sql_tuple item_list
                ((q.push "\nWHERE").push ("\n    " ++ col ++ " " ++ eqo ++ " "))
              exact ⟨t, ht⟩
          | null => simp [isArrValue] at hq
          | bool b => simp [isArrValue] at hq
          | number n => simp [isArrValue] at hq
          | str s => simp [isArrValue] at hq
          | obj fields => simp [isArrValue] at hq
    · rw [if_neg h2]
      by_cases h3 : containsSubstr (strToUpper eqo) "LIKE" = true
      · rw [if_pos h3]
        obtain ⟨t, ht⟩ := sqlExtends_push_sqlvalue
          (SqlValue.genericValue (Json.str
            (match vl with
             | SqlValue.genericValue (Json.str value) => "%" ++ value ++ "%"
             | _ => "")))
          ((q.push "\nWHERE").push ("\n    " ++ col ++ " " ++ eqo ++ " "))
        exact ⟨t, ht⟩
      · rw [if_neg h3]
        obtain ⟨t, ht⟩ := sqlExtends_push_sqlvalue vl
          ((q.push "\nWHERE").push ("\n    " ++ col ++ " " ++ eqo ++ " "))
        exact ⟨t, ht⟩

/-- `push_jsonvalue` binds exactly one value, except for `Null` which binds
none (every `Number` variant binds exactly one). -/
theorem push_jsonvalue_binds_len (v : Json) (q : QueryBuilder) :
    (push_jsonvalue v q).binds.length
      = q.binds.length + (if v.isNull then 0 else 1) := by
  cases v with
  | null => simp [push_jsonvalue, Json.isNull]
  | number n =>
      cases n <;>
        simp [push_jsonvalue, Json.isNull, JNumber.is_f64, JNumber.is_i64,
          JNumber.is_u64, QueryBuilder.push_bind]
  | bool b => simp [push_jsonvalue, Json.isNull, QueryBuilder.push_bind]
  | str s => simp [push_jsonvalue, Json.isNull, QueryBuilder.push_bind]
  | arr items => simp [push_jsonvalue, Json.isNull, QueryBuilder.push_bind]
  | obj fields => simp [push_jsonvalue, Json.isNull, QueryBuilder.push_bind]

theorem sqlTupleLoop_binds_len (items : List Json) (len i : Nat) (q : QueryBuilder) :
    (sqlTupleLoop len i items q).binds.length
      = q.binds.length + items.countP (fun v => !v.isNull) := by
  induction items generalizing i q with
  | nil => simp [sqlTupleLoop]
  | cons item rest ih =>
      simp only [sqlTupleLoop]
      rw [ih]
      have hb : (if i < len - 1 then (push_jsonvalue item q).push ", "
                 else push_jsonvalue item q).binds
          = (push_jsonvalue item q).binds := by split <;> rfl
      rw [hb, push_jsonvalue_binds_len, List.countP_cons]
      cases h : item.isNull with
      | false => simp [h]; omega
      | true => simp [h]

/-- `push_as_sql_tuple` emits one placeholder per non-`Null` array element. -/
theorem push_as_sql_tuple_binds_len (items : List Json) (q : QueryBuilder) :
    (push_as_sql_tuple items q).binds.length
      = q.binds.length + items.countP (fun v => !v.isNull) := by
  simp only [push_as_sql_tuple, push_binds]
  rw [sqlTupleLoop_binds_len]
  rfl

/-- The text the row loop produces when the column count is zero: each empty
row contributes the bare group `       ()` plus the separator chosen by its
position in the original matrix, each non-empty row contributes nothing. -/
def zeroColRowsText (rowsLen : Nat) : Nat → List Row → String
  | _, [] => ""
  | i, r :: rest =>
      (if 0 = List.length r then
         "       (" ++ (if i < rowsLen - 1 then "),\n" else ")\n")
       else "")
      ++ zeroColRowsText rowsLen (i + 1) rest

/-- With a zero column count the row loop never panics, never binds, and
appends exactly `zeroColRowsText`. -/
theorem insertRowsLoop_zero (rows : List Row) (rowsLen i : Nat) (q : QueryBuilder) :
    insertRowsLoop 0 rowsLen i rows q
      = some ⟨q.sql ++ zeroColRowsText rowsLen i rows, q.binds⟩ := by
  induction rows generalizing i q with
  | nil => simp [insertRowsLoop, zeroColRowsText, String.append_empty]
  | cons r rest ih =>
      simp only [insertRowsLoop, zeroColRowsText]
      by_cases h : 0 = List.length r
      · have hr : r = [] := List.length_eq_zero.mp h.symm
        subst hr
        rw [if_pos h, if_pos h]
        simp only [insertRowVals]
        rw [ih]
        split <;> simp [QueryBuilder.push, String.append_assoc]
      · rw [if_neg h, if_neg h]
        rw [ih]
        have : ("" : String) ++ zeroColRowsText rowsLen (i + 1) rest
            = zeroColRowsText rowsLen (i + 1) rest := rfl
        rw [this]

/-! ## Claim C1 -/

/-- Claim C1 fails as stated: the live `ConditionBuilder::build` matches the
uppercased comparator against `"BETWEEN"` *exactly*, so `"NOT BETWEEN"`
(which contains `"BETWEEN"`) falls to the default branch and emits a single
placeholder bound to `left_value` only, not `<col> <comparator> <ph> AND <ph>`.
In the superseded `condition_builder` (which does use substring containment)
the claim also fails: a present `right_value` with an absent `left_value` is
silently skipped even though the claim requires emission. -/
theorem C1_counterexample :
    ConditionBuilder.build
      ⟨.sqlText "",
       [⟨none, "test_col", "NOT BETWEEN", .genericValue (.number (.posInt 5)),
         some (.genericValue (.number (.posInt 24)))⟩],
       none, none, none, none⟩
      = ⟨"\nWHERE\n    test_col NOT BETWEEN $1", [.optI64 (some 5)]⟩ ∧
    ("\nWHERE\n    test_col NOT BETWEEN $1" : String)
      ≠ "\nWHERE\n    test_col NOT BETWEEN $1 AND $2" ∧
    Legacy.condition_builder ""
      [⟨none, "test_col", "NOT BETWEEN", none, some (.number (.posInt 24))⟩]
      "" none none ""
      = ⟨"", []⟩ :=
  ⟨rfl, by decide, rfl⟩

/-- Claim C1 (amended): for every predicate whose comparator *uppercases to
`"BETWEEN"` exactly* and whose `right_value` is present, the assembler emits
`<col> <comparator> <placeholder> AND <placeholder>`, binding `left_value`
then `right_value` (at index 0, or chained when a chain operator is present);
if `right_value` is absent the predicate is silently skipped. -/
theorem C1_amended (c : Condition) (q : QueryBuilder)
    (h : strToUpper c.eq_opr = "BETWEEN") :
    (∀ value_r, c.value_r = some value_r →
       condStep 0 c q
         = push_sqlvalue value_r
             ((push_sqlvalue c.value_l
                 ((q.push "\nWHERE").push
                   ("\n    " ++ c.column ++ " " ++ c.eq_opr ++ " "))).push " AND ")) ∧
    (∀ value_r chain_opr i, c.value_r = some value_r →
       c.chain_opr = some chain_opr → i ≠ 0 →
       condStep i c q
         = push_sqlvalue value_r
             ((push_sqlvalue c.value_l
                 (q.push
                   ("\n    " ++ chain_opr ++ " " ++ c.column ++ " " ++ c.eq_opr ++ " "))).push
               " AND ")) ∧
    (c.value_r = none → ∀ i, condStep i c q = q) := by
  obtain ⟨co, col, eqo, vl, vr⟩ := c
  simp only at h
  refine ⟨?_, ?_, ?_⟩
  · intro value_r hv
    subst hv
    simp [condStep, h]
  · intro value_r chain_opr i hv hc hi
    subst hv
    subst hc
    simp [condStep, h, if_neg hi]
  · intro hv i
    subst hv
    simp [condStep, h]

/-- Claim C1 witness: the amended statement at the crate's own test input. -/
theorem C1_amended_witness :
    strToUpper "BETWEEN" = "BETWEEN" ∧
    condStep 0
      ⟨none, "test_col", "BETWEEN", .genericValue (.number (.posInt 5)),
       some (.genericValue (.number (.posInt 24)))⟩ ⟨"", []⟩
      = ⟨"\nWHERE\n    test_col BETWEEN $1 AND $2",
         [.optI64 (some 5), .optI64 (some 24)]⟩ := by
  constructor
  · rfl
  · rw [(C1_amended
        ⟨none, "test_col", "BETWEEN", .genericValue (.number (.posInt 5)),
         some (.genericValue (.number (.posInt 24)))⟩ ⟨"", []⟩ rfl).1
        (.genericValue (.number (.posInt 24))) rfl]
    rfl

/-! ## Claim C2 -/

/-- Claim C2 fails as stated: a *chained* LIKE predicate binds `left_value`
unmodified — here the second bound value is `"sample"`, not `"%sample%"`. -/
theorem C2_counterexample :
    ConditionBuilder.build
      ⟨.sqlText "",
       [⟨none, "test_col", "=", .genericValue (.number (.posInt 5)), none⟩,
        ⟨some "AND", "test_col2", "LIKE", .genericValue (.str "sample"), none⟩],
       none, none, none, none⟩
      = ⟨"\nWHERE\n    test_col = $1\n    AND test_col2 LIKE $2",
         [.optI64 (some 5), .str "sample"]⟩ ∧
    ("sample" : String) ≠ "%sample%" :=
  ⟨rfl, by decide⟩

/-- Claim C2 (amended): the `%...%` wrapping (and the empty-string fallback
for non-text values) applies only to the *leading* (index 0) LIKE predicate;
a chained LIKE predicate binds `left_value` unmodified; comparators outside
the LIKE family (other than the BETWEEN/IN special forms) bind `left_value`
unmodified as well. -/
theorem C2_amended (c : Condition) (q : QueryBuilder) :
    (containsSubstr (strToUpper c.eq_opr) "LIKE" = true →
       condStep 0 c q
         = push_sqlvalue (.genericValue (.str (like_wrap c.value_l)))
             ((q.push "\nWHERE").push ("\n    " ++ c.column ++ " " ++ c.eq_opr ++ " "))) ∧
    (∀ i chain_opr, i ≠ 0 → containsSubstr (strToUpper c.eq_opr) "LIKE" = true →
       c.chain_opr = some chain_opr →
       condStep i c q
         = push_sqlvalue c.value_l
             (q.push ("\n    " ++ chain_opr ++ " " ++ c.column ++ " " ++ c.eq_opr ++ " "))) ∧
    (containsSubstr (strToUpper c.eq_opr) "LIKE" = false →
     strToUpper c.eq_opr ≠ "BETWEEN" → strToUpper c.eq_opr ≠ "IN" →
       condStep 0 c q
         = push_sqlvalue c.value_l
             ((q.push "\nWHERE").push ("\n    " ++ c.column ++ " " ++ c.eq_opr ++ " "))) := by
  obtain ⟨co, col, eqo, vl, vr⟩ := c
  refine ⟨?_, ?_, ?_⟩
  · intro hL
    simp only at hL
    have h1 : strToUpper eqo ≠ "BETWEEN" := by
      intro he; rw [he] at hL; exact absurd hL (by decide)
    have h2 : strToUpper eqo ≠ "IN" := by
      intro he; rw [he] at hL; exact absurd hL (by decide)
    simp only [condStep, if_neg h1, if_neg h2, hL, if_pos rfl, eq_self_iff_true, if_true]
    cases vl with
    | naiveChrono nc => simp [like_wrap]
    | genericValue v => cases v <;> simp [like_wrap]
  · intro i chain_opr hi hL hc
    simp only at hL hc
    subst hc
    have h1 : strToUpper eqo ≠ "BETWEEN" := by
      intro he; rw [he] at hL; exact absurd hL (by decide)
    have h2 : strToUpper eqo ≠ "IN" := by
      intro he; rw [he] at hL; exact absurd hL (by decide)
    simp only [condStep, if_neg h1, if_neg h2, hL, if_pos rfl, if_neg hi, if_true]
  · intro hL h1 h2
    simp only at hL h1 h2
    simp only [condStep, if_neg h1, if_neg h2, hL, eq_self_iff_true, if_true,
      Bool.false_eq_true, if_false]

/-- Claim C2 witness: leading LIKE wraps; chained LIKE passes through. -/
theorem C2_amended_witness :
    containsSubstr (strToUpper "LIKE") "LIKE" = true ∧
    condStep 0 ⟨none, "test_col", "LIKE", .genericValue (.str "sample"), none⟩ ⟨"", []⟩
      = ⟨"\nWHERE\n    test_col LIKE $1", [.str "%sample%"]⟩ ∧
    condStep 1 ⟨some "AND", "test_col2", "LIKE", .genericValue (.str "sample"), none⟩ ⟨"", []⟩
      = ⟨"\n    AND test_col2 LIKE $1", [.str "sample"]⟩ := by
  refine ⟨by decide, ?_, ?_⟩
  · rw [(C2_amended
        ⟨none, "test_col", "LIKE", .genericValue (.str "sample"), none⟩ ⟨"", []⟩).1
        (by decide)]
    rfl
  · rw [(C2_amended
        ⟨some "AND", "test_col2", "LIKE", .genericValue (.str "sample"), none⟩ ⟨"", []⟩).2.1
        1 "AND" (by decide) (by decide) rfl]
    rfl

/-! ## Claim C3 -/

/-- Claim C3 fails as stated: with an empty column list, `build_all` still
hands the (empty) buffer to the predicate assembler, so a non-empty predicate
list produces a bare `WHERE` fragment — the output is not empty. -/
theorem C3_counterexample :
    UpdateBuilder.build_all
      ⟨"sample_table", [],
       [⟨none, "id", "=", .genericValue (.number (.posInt 5)), none⟩], none⟩
      = ⟨"\nWHERE\n    id = $1", [.optI64 (some 5)]⟩ ∧
    ("\nWHERE\n    id = $1" : String) ≠ "" :=
  ⟨rfl, by decide⟩

/-- Claim C3 (amended): with an empty column list, `build` (the column/`SET`
fragment) is empty, and `build_all` equals the predicate assembler run over an
empty base — so the fully assembled statement is empty only when the
predicate list contributes nothing and the trailing clause is absent. -/
theorem C3_amended (b : UpdateBuilder) (h : b.columns = []) :
    b.build = ⟨"", []⟩ ∧
    b.build_all
      = ConditionBuilder.build
          ⟨.queryBuilder ⟨"", []⟩, b.conditions, none, none, none, b.endPart⟩ ∧
    (b.conditions = [] → b.endPart = none → b.build_all = ⟨"", []⟩) := by
  obtain ⟨t, cols, conds, ep⟩ := b
  simp only at h
  subst h
  refine ⟨rfl, rfl, ?_⟩
  intro hc he
  simp only at hc he
  subst hc
  subst he
  rfl

/-- Claim C3 witness: the amended statement at an all-empty update builder. -/
theorem C3_amended_witness :
    UpdateBuilder.build ⟨"t", [], [], none⟩ = ⟨"", []⟩ ∧
    UpdateBuilder.build_all ⟨"t", [], [], none⟩ = ⟨"", []⟩ := by
  refine ⟨(C3_amended ⟨"t", [], [], none⟩ rfl).1, ?_⟩
  exact (C3_amended ⟨"t", [], [], none⟩ rfl).2.2 rfl rfl

/-! ## Claim C4 -/

/-- Claim C4 names a genuine property the code lacks: the row separator is
chosen by the row's index in the *original* matrix (`row_index < rows.len()-1`),
not among emitted rows.  When the dropped malformed row is the last row of the
matrix, the final emitted row is followed by `"),\n"` — a trailing comma —
instead of `")\n"`, contradicting the claim (and producing invalid SQL). -/
theorem C4_trailing_comma :
    InsertBuilder.build
      ⟨"sample_table", ["column1"],
       [[some (.genericValue (.str "title1"))], []], none⟩
      = some ⟨"INSERT INTO sample_table(column1)\nVALUES\n       ($1),\n",
              [.str "title1"]⟩ ∧
    ("INSERT INTO sample_table(column1)\nVALUES\n       ($1),\n" : String)
      ≠ "INSERT INTO sample_table(column1)\nVALUES\n       ($1)\n" :=
  ⟨rfl, by decide⟩

/-! ## Claim C5 -/

/-- Claim C5 names a genuine property the code lacks: `InsertBuilder::build`
calls `v.as_i64().unwrap()` whenever `v.is_i64() || v.is_u64()`, but a `u64`
above `i64::MAX` satisfies `is_u64` while `as_i64` returns `None`, so the
`unwrap` panics (modelled as `none`).  The predicate-path binder
`push_jsonvalue` handles the same value without failing. -/
theorem C5_unwrap_panic :
    InsertBuilder.build
      ⟨"t", ["c"], [[some (.genericValue (.number (.posInt (2 ^ 63))))]], none⟩
      = none ∧
    JNumber.is_u64 (.posInt (2 ^ 63)) = true ∧
    JNumber.as_i64 (.posInt (2 ^ 63)) = none ∧
    push_jsonvalue (.number (.posInt (2 ^ 63))) ⟨"", []⟩
      = ⟨"$1", [.optI64 none]⟩ :=
  ⟨rfl, rfl, rfl, rfl⟩

/-! ## Claim C6 -/

/-- Claim C6 fails in its insert half: a *present* `Null` entry in an insert
row is not treated like an absent entry — it pushes the literal text `null`
(while an absent entry pushes `default`), so Null does contribute text. -/
theorem C6_counterexample :
    InsertBuilder.build ⟨"t", ["c"], [[some (.genericValue .null)]], none⟩
      = some ⟨"INSERT INTO t(c)\nVALUES\n       (null)\n", []⟩ ∧
    InsertBuilder.build ⟨"t", ["c"], [[none]], none⟩
      = some ⟨"INSERT INTO t(c)\nVALUES\n       (default)\n", []⟩ ∧
    ("INSERT INTO t(c)\nVALUES\n       (null)\n" : String)
      ≠ "INSERT INTO t(c)\nVALUES\n       (default)\n" :=
  ⟨rfl, rfl, by decide⟩

/-- Claim C6 (amended): in the predicate binder, `Null` contributes nothing —
no placeholder, no bound value, no text; in an insert row, a present
`Null`-valued entry emits the literal text `null` (no placeholder, no bound
value), which is distinct from the `default` emitted for an absent entry. -/
theorem C6_amended (q : QueryBuilder) :
    push_jsonvalue .null q = q ∧
    push_sqlvalue (.genericValue .null) q = q ∧
    insertPushValue (.genericValue .null) q = some (q.push "null") :=
  ⟨rfl, rfl, rfl⟩

/-! ## Claim C7 -/

/-- Claim C7: the leading (physical index 0) step ignores the chain operator
entirely, and whenever the leading predicate qualifies for its comparator
branch the assembled output begins with literal `WHERE` followed by the
clause head `\n    <col> <op> ` — for any tail, middle text, limit, offset
and trailing text. -/
theorem C7_leading_where (c : Condition) :
    (∀ q co, condStep 0 c q = condStep 0 { c with chain_opr := co } q) ∧
    (qualifies c = true →
      ∀ cs middle limit offset endp,
        ∃ rest,
          (ConditionBuilder.build
              ⟨.sqlText "", c :: cs, middle, limit, offset, endp⟩).sql
            = "\nWHERE" ++ ("\n    " ++ c.column ++ " " ++ c.eq_opr ++ " ") ++ rest) := by
  constructor
  · intro q co
    exact condStep_zero_chain c co q
  · intro hq cs middle limit offset endp
    obtain ⟨r0, hr0⟩ := condStep_zero_where c (QueryBuilder.new "") hq
    obtain ⟨r1, hr1⟩ := sqlExtends_condLoop cs 1 (condStep 0 c (QueryBuilder.new ""))
    obtain ⟨r2, hr2⟩ := sqlExtends_build
      ⟨.sqlText "", c :: cs, middle, limit, offset, endp⟩
    refine ⟨r0 ++ (r1 ++ r2), ?_⟩
    have hLoop : condLoop 0 (c :: cs) (BaseQuery.toQuery (.sqlText ""))
        = condLoop 1 cs (condStep 0 c (QueryBuilder.new "")) := rfl
    rw [hr2, hLoop, hr1, hr0]
    simp only [String.append_assoc]
    rfl

/-- Claim C7 witness: a single LIKE predicate with and without a chain
operator, plus the `WHERE`-headed shape of the resulting statement. -/
theorem C7_witness :
    qualifies ⟨some "AND", "test_col", "LIKE", .genericValue (.str "sample"), none⟩ = true ∧
    condStep 0 ⟨some "AND", "test_col", "LIKE", .genericValue (.str "sample"), none⟩ ⟨"", []⟩
      = condStep 0 ⟨none, "test_col", "LIKE", .genericValue (.str "sample"), none⟩ ⟨"", []⟩ ∧
    (∃ rest,
      (ConditionBuilder.build
          ⟨.sqlText "",
           [⟨some "AND", "test_col", "LIKE", .genericValue (.str "sample"), none⟩],
           none, none, none, none⟩).sql
        = "\nWHERE" ++ ("\n    " ++ "test_col" ++ " " ++ "LIKE" ++ " ") ++ rest) := by
  refine ⟨by decide, ?_, ?_⟩
  · exact ((C7_leading_where
      ⟨some "AND", "test_col", "LIKE", .genericValue (.str "sample"), none⟩).1
      ⟨"", []⟩ none)
  · exact (C7_leading_where
      ⟨some "AND", "test_col", "LIKE", .genericValue (.str "sample"), none⟩).2
      (by decide) [] none none none none

/-! ## Claim C8 -/

/-- Claim C8: a predicate at physical position `k > 0` with no chain operator
produces no output at all — the whole build equals the build of the list with
that predicate removed (same text, same bound values, same placeholders for
everything else, middle/limit/offset/trailer included). -/
theorem C8_chainless_skip (base : BaseQuery) (conds : List Condition)
    (middle : Option String) (limit offset : Option Int) (endp : Option String)
    (k : Nat) (hk0 : 0 < k) (hk : k < conds.length)
    (hc : (conds.get ⟨k, hk⟩).chain_opr = none) :
    ConditionBuilder.build ⟨base, conds, middle, limit, offset, endp⟩
      = ConditionBuilder.build ⟨base, conds.eraseIdx k, middle, limit, offset, endp⟩ := by
  have hLoop : condLoop 0 conds base.toQuery
      = condLoop 0 (conds.eraseIdx k) base.toQuery := by
    cases conds with
    | nil => simp at hk
    | cons c rest =>
        cases k with
        | zero => exact absurd hk0 (by simp)
        | succ k' =>
            have h1 : (c :: rest).eraseIdx (k' + 1) = c :: rest.eraseIdx k' := rfl
            rw [h1]
            show condLoop 1 rest (condStep 0 c base.toQuery)
              = condLoop 1 (rest.eraseIdx k') (condStep 0 c base.toQuery)
            exact condLoop_erase_pos rest 1 k' _ Nat.one_ne_zero
              (by simpa using hk) (by simpa using hc)
  simp only [ConditionBuilder.build]
  rw [hLoop]

/-- Claim C8 witness: a chain-operator-less second predicate vanishes; the
build equals the build of the one-element list. -/
theorem C8_witness :
    (0 : Nat) < 1 ∧
    (([⟨none, "test_col", "=", .genericValue (.number (.posInt 5)), none⟩,
       ⟨none, "other_col", "=", .genericValue (.number (.posInt 7)), none⟩] :
        List Condition).get ⟨1, by simp⟩).chain_opr = none ∧
    ConditionBuilder.build
      ⟨.sqlText "",
       [⟨none, "test_col", "=", .genericValue (.number (.posInt 5)), none⟩,
        ⟨none, "other_col", "=", .genericValue (.number (.posInt 7)), none⟩],
       some "ORDER BY id", some 10, none, none⟩
      = ConditionBuilder.build
          ⟨.sqlText "",
           [⟨none, "test_col", "=", .genericValue (.number (.posInt 5)), none⟩],
           some "ORDER BY id", some 10, none, none⟩ := by
  refine ⟨by decide, rfl, ?_⟩
  exact C8_chainless_skip (.sqlText "")
    [⟨none, "test_col", "=", .genericValue (.number (.posInt 5)), none⟩,
     ⟨none, "other_col", "=", .genericValue (.number (.posInt 7)), none⟩]
    (some "ORDER BY id") (some 10) none none 1 (by decide) (by simp) rfl

/-! ## Claim C9 -/

/-- Claim C9 fails as stated in its "one placeholder per array element"
part: a `Null` element of the array is passed through `push_jsonvalue`, which
emits nothing for `Null` — here a 1-element array produces `IN ()` with zero
placeholders and zero bound values. -/
theorem C9_counterexample :
    ConditionBuilder.build
      ⟨.sqlText "",
       [⟨none, "test_col", "IN", .genericValue (.arr [.null]), none⟩],
       none, none, none, none⟩
      = ⟨"\nWHERE\n    test_col IN ()", []⟩ ∧
    ([Json.null] : List Json).length = 1 ∧
    ("\nWHERE\n    test_col IN ()" : String) ≠ "\nWHERE\n    test_col IN ($1)" :=
  ⟨rfl, rfl, by decide⟩

/-- Claim C9 (amended): for a comparator uppercasing exactly to `"IN"` with an
array `left_value`, the leading step emits `<col> <comparator> (` then the
comma-joined element bindings then `)`, with one placeholder per *non-Null*
element (Null elements emit no placeholder, though their positional `", "`
separators remain); a non-array `left_value` under IN silently skips the
predicate at any index; the spec's concrete example holds verbatim. -/
theorem C9_amended (c : Condition) (q : QueryBuilder) :
    (∀ item_list, strToUpper c.eq_opr = "IN" →
       c.value_l = .genericValue (.arr item_list) →
       condStep 0 c q
         = push_as_sql_tuple item_list
             ((q.push "\nWHERE").push ("\n    " ++ c.column ++ " " ++ c.eq_opr ++ " "))) ∧
    (∀ item_list, (push_as_sql_tuple item_list q).binds.length
       = q.binds.length + item_list.countP (fun v => !v.isNull)) ∧
    (∀ i, strToUpper c.eq_opr = "IN" → isArrValue c.value_l = false →
       condStep i c q = q) ∧
    ConditionBuilder.build
      ⟨.sqlText "",
       [⟨none, "test_col", "IN",
         .genericValue (.arr [.str "ab", .str "cd", .str "ef"]), none⟩],
       none, none, none, none⟩
      = ⟨"\nWHERE\n    test_col IN ($1, $2, $3)",
         [.str "ab", .str "cd", .str "ef"]⟩ := by
  refine ⟨?_, fun item_list => push_as_sql_tuple_binds_len item_list q, ?_, rfl⟩
  · intro items h hv
    obtain ⟨co, col, eqo, vl, vr⟩ := c
    simp only at h hv ⊢
    subst hv
    have hb : ("IN" : String) ≠ "BETWEEN" := by decide
    simp [condStep, h, hb]
  · intro i h ha
    obtain ⟨co, col, eqo, vl, vr⟩ := c
    simp only at h ha ⊢
    have hb : ("IN" : String) ≠ "BETWEEN" := by decide
    cases vl with
    | naiveChrono nc => cases co <;> simp [condStep, h, hb]
    | genericValue v =>
        cases v with
        | arr items => simp [isArrValue] at ha
        | null => cases co <;> simp [condStep, h, hb]
        | bool b => cases co <;> simp [condStep, h, hb]
        | number n => cases co <;> simp [condStep, h, hb]
        | str s => cases co <;> simp [condStep, h, hb]
        | obj fields => cases co <;> simp [condStep, h, hb]

/-- Claim C9 witness: the amended statement at concrete inputs. -/
theorem C9_amended_witness :
    strToUpper "IN" = "IN" ∧
    condStep 0 ⟨none, "test_col", "IN", .genericValue (.arr [.str "ab"]), none⟩ ⟨"", []⟩
      = ⟨"\nWHERE\n    test_col IN ($1)", [.str "ab"]⟩ ∧
    isArrValue (.genericValue (.str "x")) = false ∧
    condStep 0 ⟨none, "c", "IN", .genericValue (.str "x"), none⟩ ⟨"", []⟩ = ⟨"", []⟩ := by
  refine ⟨rfl, ?_, rfl, ?_⟩
  · rw [(C9_amended
        ⟨none, "test_col", "IN", .genericValue (.arr [.str "ab"]), none⟩ ⟨"", []⟩).1
        [.str "ab"] rfl rfl]
    rfl
  · exact (C9_amended ⟨none, "c", "IN", .genericValue (.str "x"), none⟩ ⟨"", []⟩).2.2.1
      0 rfl rfl

/-! ## Claim C10 -/

/-- Claim C10: with an empty column list and a non-empty row list the output
is not empty — it is `INSERT INTO <table>(` with the parenthesis never closed
(only the last column would close it), then `VALUES\n`, then per original row
position, nothing for a non-empty row (length ≠ 0 columns, dropped) and the
bare group `       ()` (plus its positional separator) for an empty row; no
value is ever bound. -/
theorem C10_empty_columns (table : String) (rows : List Row) (last : Option String)
    (h : rows ≠ []) :
    InsertBuilder.build ⟨table, [], rows, last⟩
      = some ⟨"INSERT INTO " ++ table ++ "(" ++ "VALUES\n"
                ++ zeroColRowsText rows.length 0 rows
                ++ (match last with | some lp => lp ++ "\n" | none => ""),
              []⟩ := by
  cases rows with
  | nil => exact absurd rfl h
  | cons r rs =>
      simp only [InsertBuilder.build, List.isEmpty_cons, insertColsLoop,
        List.length_nil, Bool.false_eq_true, if_false]
      rw [insertRowsLoop_zero]
      cases last with
      | none =>
          simp only [QueryBuilder.push, String.append_assoc, String.append_empty,
            Option.some.injEq, QueryBuilder.mk.injEq]
          exact ⟨rfl, rfl⟩
      | some lp =>
          simp only [QueryBuilder.push, String.append_assoc, Option.some.injEq,
            QueryBuilder.mk.injEq]
          exact ⟨rfl, rfl⟩

/-- Claim C10 witness: one empty row next to one non-empty row. -/
theorem C10_witness :
    ([[], [some (.genericValue (.number (.posInt 5)))]] : List Row) ≠ [] ∧
    InsertBuilder.build
      ⟨"t", [], [[], [some (.genericValue (.number (.posInt 5)))]], none⟩
      = some ⟨"INSERT INTO t(VALUES\n       (),\n", []⟩ := by
  constructor
  · exact List.cons_ne_nil _ _
  · exact C10_empty_columns "t" [[], [some (.genericValue (.number (.posInt 5)))]] none
      (List.cons_ne_nil _ _)
